import Mathlib

/-!
Verification development for the PaddleFlow job-orchestration core.

The Go sources embedded here are:
- pkg/apiserver/models/job.go : the job record and its repository functions
  (CreateJob, GetJobByID, UpdateJobStatus, UpdateJob, ListQueueJob,
  GetJobsByRunID);
- the job service file (package job): CreateSingleJob, patchEnvs,
  patchSingleEnvs, CreateJob, checkPriority, CheckPermission, DeleteJob,
  StopJob, getRuntimeByQueue.

External collaborators that the repository does not contain (the schema
package, the errors package, the queue and cluster directory, the runtime
registry, the runtime service, and the gorm database engine) are modelled
as explicit parameters or, where the spec fixes their behaviour, as
definitions marked as modelled from the spec. Go errors are opaque values
produced by errors.New and fmt.Errorf, so they are modelled as strings.
The database is modelled as a list of job records, and every externally
visible call made by an operation is recorded in an event trace.
-/

/-- Modelled from the spec: the schema package is absent from the sources.
The spec fixes the state names Init, Pending, Running, Succeeded, Failed,
Terminated; statuses are Go strings. -/
def StatusJobInit : String := "init"

/-- Modelled from the spec: the pending state name. -/
def StatusJobPending : String := "pending"

/-- Modelled from the spec: the running state name. -/
def StatusJobRunning : String := "running"

/-- Modelled from the spec: the succeeded terminal state name. -/
def StatusJobSucceeded : String := "succeeded"

/-- Modelled from the spec: the failed terminal state name. -/
def StatusJobFailed : String := "failed"

/-- Modelled from the spec: the terminated terminal state name. -/
def StatusJobTerminated : String := "terminated"

/-- Modelled from the spec: schema.IsImmutableJobStatus is absent from the
sources; the spec fixes the terminal set as Succeeded, Failed, Terminated. -/
def IsImmutableJobStatus (s : String) : Bool :=
  s == StatusJobSucceeded || s == StatusJobFailed || s == StatusJobTerminated

/-- Modelled from the spec: the low priority label of the schema package. -/
def EnvJobLowPriority : String := "low"

/-- Modelled from the spec: the default normal priority label. -/
def EnvJobNormalPriority : String := "normal"

/-- Modelled from the spec: the high priority label. -/
def EnvJobHighPriority : String := "high"

/-- Modelled from the spec: the env key carrying the job kind marker. -/
def EnvJobType : String := "PF_JOB_TYPE"

/-- Modelled from the spec: the env key carrying the queue name tag. -/
def EnvJobQueueName : String := "PF_JOB_QUEUE_NAME"

/-- Modelled from the spec: the job kind marker for single container jobs. -/
def TypePodJob : String := "single"

/-- Modelled from the spec: errors.JobIDNotFoundError of the absent errors
package, an error value carrying the offending job id. -/
def JobIDNotFoundError (id : String) : String :=
  "jobID " ++ id ++ " not found"

/-- Modelled from the spec: errors.InvalidJobPriorityError of the absent
errors package, an error value carrying the offending priority label. -/
def InvalidJobPriorityError (p : String) : String :=
  "invalid job priority " ++ p

/-- The gorm record-not-found error value returned when a First query finds
no row. -/
def ErrRecordNotFound : String := "record not found"

/-- A filesystem reference of a job configuration (schema.FileSystem). -/
structure FileSystemRef where
  name : String
  deriving DecidableEq, Repr

/-- A named resource flavour (schema.Flavour). -/
structure Flavour where
  name : String
  deriving DecidableEq, Repr

/-- Modelled from the spec: schema.Conf is absent from the sources. Fields
and the capability contract (get and set name, env, queue id, cluster id,
name space, flavour, priority, user name, filesystem) are taken from the
spec and from the uses in the job service file. Maps are association
lists. -/
structure Conf where
  name : String
  labels : List (String × String)
  annots : List (String × String)
  env : List (String × String)
  port : Nat
  image : String
  command : String
  args : List String
  fileSystem : FileSystemRef
  extraFileSystems : List FileSystemRef
  priority : String
  flavour : Flavour
  queueID : String
  clusterID : String
  ns : String
  userName : String
  fsID : String
  deriving DecidableEq, Repr

/-- Conf.SetEnv: insert or overwrite one env key. -/
def Conf.setEnv (c : Conf) (k v : String) : Conf :=
  { c with env := (k, v) :: c.env.filter (fun p => p.1 ≠ k) }

/-- Conf.Type reads the job kind marker set through SetEnv. -/
def Conf.typ (c : Conf) : String :=
  ((c.env.find? (fun p => p.1 == EnvJobType)).map Prod.snd).getD ""

/-- A default configuration value used to build concrete records. -/
def defConf : Conf :=
  { name := "", labels := [], annots := [], env := [], port := 0,
    image := "", command := "", args := [], fileSystem := ⟨""⟩,
    extraFileSystems := [], priority := "", flavour := ⟨""⟩, queueID := "",
    clusterID := "", ns := "", userName := "", fsID := "" }

/-- sql.NullTime: a time stamp paired with a validity flag; time is a
tick count. -/
structure NullTime where
  time : Nat
  valid : Bool
  deriving DecidableEq, Repr

/-- The persisted job record (models.Job). RuntimeInfo is an opaque blob,
modelled as an optional string. ExtensionTemplate is the stored template
text set by the service CreateJob. -/
structure Job where
  id : String
  jobType : String
  userName : String
  queueID : String
  config : Conf
  runtimeInfo : Option String
  status : String
  message : String
  activatedAt : NullTime
  extensionTemplate : String
  deriving DecidableEq, Repr

/-- A default job record used to build concrete inputs. -/
def defJob : Job :=
  { id := "", jobType := "", userName := "", queueID := "",
    config := defConf, runtimeInfo := none, status := "", message := "",
    activatedAt := ⟨0, false⟩, extensionTemplate := "" }

/-- models.GetJobByID: the First query over the job table restricted to
one id; the database is the list of live records. -/
def GetJobByID (db : List Job) (jobID : String) : Option Job :=
  db.find? (fun j => j.id == jobID)

/-- The gorm write-back of a modified record: every row with the given id
is replaced by the new record value. -/
def saveWhere (db : List Job) (id : String) (nj : Job) : List Job :=
  db.map (fun j => if j.id == id then nj else j)

/-- The field assignments UpdateJobStatus performs on the fetched record:
the status only when the argument is nonempty and the current status is
not terminal; the message whenever it is nonempty. -/
def updateStatusRecord (job : Job) (errMessage jobStatus : String) : Job :=
  let job :=
    if jobStatus ≠ "" ∧ ¬ IsImmutableJobStatus job.status then
      { job with status := jobStatus }
    else job
  if errMessage ≠ "" then { job with message := errMessage } else job

/-- models.UpdateJobStatus: fetch the record, apply the guarded field
assignments, and write the result back to every row with this id. Returns
the updated database and the error value. -/
def UpdateJobStatus (db : List Job) (jobId errMessage jobStatus : String) :
    List Job × Option String :=
  match GetJobByID db jobId with
  | none => (db, some (JobIDNotFoundError jobId))
  | some job =>
    (saveWhere db jobId (updateStatusRecord job errMessage jobStatus), none)

/-- The field assignments models.UpdateJob performs on the fetched record:
status under the terminal guard, runtime info when present, a nonempty
message, and ActivatedAt stamped with the current time whenever the
status argument equals the running label. The current time is passed
explicitly. -/
def updateJobRecord (job : Job) (jobStatus : String) (info : Option String)
    (message : String) (now : Nat) : Job :=
  let job :=
    if jobStatus ≠ "" ∧ ¬ IsImmutableJobStatus job.status then
      { job with status := jobStatus }
    else job
  let job :=
    match info with
    | some i => { job with runtimeInfo := some i }
    | none => job
  let job := if message ≠ "" then { job with message := message } else job
  if jobStatus == StatusJobRunning then
    { job with activatedAt := ⟨now, true⟩ }
  else job

/-- models.UpdateJob applied to a database: fetch the record, apply the
assignments of updateJobRecord, save, and return the resulting status. -/
def UpdateJob (db : List Job) (jobID jobStatus : String)
    (info : Option String) (message : String) (now : Nat) :
    List Job × Except String String :=
  match GetJobByID db jobID with
  | none => (db, .error (JobIDNotFoundError jobID))
  | some job =>
    let j := updateJobRecord job jobStatus info message now
    (saveWhere db jobID j, .ok j.status)

/-- Character level matching of a SQL LIKE pattern against a target: a
percent sign matches any sequence, an underscore matches exactly one
character, any other pattern character matches itself. The whole target
must be consumed. -/
def likeMatch : List Char → List Char → Bool
  | [], t => t.isEmpty
  | p :: ps, t =>
    if p = '%' then t.tails.any (fun s => likeMatch ps s)
    else
      match t with
      | [] => false
      | c :: ts => (p = '_' || p == c) && likeMatch ps ts

/-- models.GetJobsByRunID: the query filters the table by the LIKE pattern
built from the run id, and, when the exact job id argument is nonempty,
additionally by equality with that id. -/
def GetJobsByRunID (db : List Job) (runID jobID : String) : List Job :=
  let base := db.filter (fun j => likeMatch ("job-" ++ runID ++ "-%").toList j.id.toList)
  if jobID ≠ "" then base.filter (fun j => j.id == jobID) else base

/-- Plain character by character initial segment test, used to state what
the spec means by an id of the form job dash runID dash star. -/
def listStartsWith : List Char → List Char → Bool
  | [], _ => true
  | _ :: _, [] => false
  | p :: ps, c :: ts => (p == c) && listStartsWith ps ts

/-- A queue record of the directory: display name, owning cluster id, and
the name space inside that cluster. -/
structure Queue where
  name : String
  clusterId : String
  ns : String
  deriving DecidableEq, Repr

/-- A cluster record: connection information, reduced to an identifier. -/
structure ClusterInfo where
  id : String
  deriving DecidableEq, Repr

/-- A runtime service handle returned by the runtime registry. -/
structure RuntimeSvc where
  id : String
  deriving DecidableEq, Repr

/-- The read-only job projection built by api.NewJobInfo and passed to the
runtime service. -/
structure JobInfo where
  id : String
  jobType : String
  status : String
  deriving DecidableEq, Repr

/-- Externally visible calls made by an orchestration operation, recorded
in order. Log lines carry the formatted message text. -/
inductive Event where
  | runtimeDeleteCall (j : JobInfo)
  | runtimeStopCall (j : JobInfo)
  | storeDeleteCall (id : String)
  | storeCreateCall (j : Job)
  | logLine (msg : String)
  deriving DecidableEq, Repr

/-- An event is a mutating call on the runtime service or on the job
repository; log lines are not. -/
def Event.isMutating : Event → Bool
  | .runtimeDeleteCall _ => true
  | .runtimeStopCall _ => true
  | .storeDeleteCall _ => true
  | .storeCreateCall _ => true
  | .logLine _ => false

/-- A database directory error: the gorm record-not-found value or any
other engine error. patchEnvs branches on record-not-found. -/
inductive DbErr where
  | recordNotFound
  | other (msg : String)
  deriving DecidableEq, Repr

/-- The externally injected collaborators of StopJob and DeleteJob: the
queue and cluster directory, the runtime registry, the runtime service
operations, and the outcome of the repository delete. Functions give the
response each collaborator returns when called. -/
structure OrchCtx where
  getQueueByID : String → Except String Queue
  getClusterById : String → Except String ClusterInfo
  getOrCreateRuntime : ClusterInfo → Except String RuntimeSvc
  runtimeDeleteJob : RuntimeSvc → JobInfo → Option String
  runtimeStopJob : RuntimeSvc → JobInfo → Option String
  storeDelete : String → Option String

/-- CheckPermission: the permissive stub of the source, always nil. -/
def CheckPermission : Option String := none

/-- Modelled from the spec: api.NewJobInfo is absent from the sources; the
spec describes the job info as a read-only projection of the persisted
record (id, kind, status). -/
def NewJobInfo (j : Job) : Except String JobInfo :=
  .ok { id := j.id, jobType := j.jobType, status := j.status }

/-- getRuntimeByQueue: resolve the queue, then the cluster, then obtain a
runtime handle from the registry; a registry failure is replaced by the
literal error text of the source. -/
def getRuntimeByQueue (ctx : OrchCtx) (queueID : String) :
    Except String RuntimeSvc :=
  match ctx.getQueueByID queueID with
  | .error e => .error e
  | .ok queue =>
    match ctx.getClusterById queue.clusterId with
    | .error e => .error e
    | .ok clusterInfo =>
      match ctx.getOrCreateRuntime clusterInfo with
      | .error _ => .error "delete queue failed"
      | .ok rt => .ok rt

/-- The log text used by DeleteJob after a failed runtime delete, and
reused verbatim by the source after a failed repository delete. -/
def deleteFromClusterFailMsg (id err : String) : String :=
  "delete job " ++ id ++ " from cluster failed, err: " ++ err

/-- The error and log text StopJob produces for a terminal job. -/
def stopConflictMsg (id status : String) : String :=
  "job " ++ id ++ " status is already " ++ status ++ ", and job cannot be stopped"

/-- DeleteJob of the job service: permission stub, fetch the record,
resolve the runtime handle, build the job info projection, ask the runtime
to delete, and only then delete the repository record. Returns the error
value, the resulting database, and the event trace. The repository delete
outcome is injected through the context; on its success the record is
removed. -/
def DeleteJob (ctx : OrchCtx) (db : List Job) (jobID : String) :
    Option String × List Job × List Event :=
  match CheckPermission with
  | some e => (some e, db, [])
  | none =>
  match GetJobByID db jobID with
  | none => (some ErrRecordNotFound, db, [])
  | some job =>
    match getRuntimeByQueue ctx job.queueID with
    | .error e => (some e, db, [])
    | .ok rt =>
      match NewJobInfo job with
      | .error e => (some e, db, [])
      | .ok pfjob =>
        match ctx.runtimeDeleteJob rt pfjob with
        | some e =>
          (some e, db,
            [.runtimeDeleteCall pfjob, .logLine (deleteFromClusterFailMsg jobID e)])
        | none =>
          match ctx.storeDelete jobID with
          | some e =>
            (some e, db,
              [.runtimeDeleteCall pfjob, .storeDeleteCall jobID,
               .logLine (deleteFromClusterFailMsg jobID e)])
          | none =>
            (none, db.filter (fun j => j.id ≠ jobID),
              [.runtimeDeleteCall pfjob, .storeDeleteCall jobID])

/-- StopJob of the job service: permission stub, fetch the record, reject
a terminal job with the conflict error before any further call, otherwise
resolve the runtime handle and ask the runtime to stop the job. StopJob
never mutates the repository, so only the error value and the trace are
returned. -/
def StopJob (ctx : OrchCtx) (db : List Job) (jobID : String) :
    Option String × List Event :=
  match CheckPermission with
  | some e => (some e, [])
  | none =>
  match GetJobByID db jobID with
  | none => (some ErrRecordNotFound, [])
  | some job =>
    if IsImmutableJobStatus job.status then
      (some (stopConflictMsg jobID job.status),
        [.logLine (stopConflictMsg jobID job.status)])
    else
      match getRuntimeByQueue ctx job.queueID with
      | .error e => (some e, [])
      | .ok rt =>
        match NewJobInfo job with
        | .error e => (some e, [])
        | .ok pfjob =>
          match ctx.runtimeStopJob rt pfjob with
          | some e =>
            (some e, [.runtimeStopCall pfjob, .logLine (deleteFromClusterFailMsg job.id e)])
          | none => (none, [.runtimeStopCall pfjob])

/-- checkPriority: an empty priority is replaced by the normal label; a
nonempty priority outside low, normal, high fails with the invalid
priority error carrying the offending value; a valid label passes
unchanged. The configuration is threaded because the source mutates it
through a pointer. -/
def checkPriority (conf : Conf) : Except String Conf :=
  if conf.priority.length = 0 then
    .ok { conf with priority := EnvJobNormalPriority }
  else
    if conf.priority ≠ EnvJobLowPriority ∧ conf.priority ≠ EnvJobNormalPriority ∧
        conf.priority ≠ EnvJobHighPriority then
      .error (InvalidJobPriorityError conf.priority)
    else
      .ok conf

/-- The collaborators of the service CreateJob: the structural validator
of the job package (absent from the sources, so a parameter), the id the
uuid generator would produce, and the outcome of the repository create. -/
structure CreateCtx where
  validateJob : Conf → Option String
  generatedID : String
  storeCreate : Job → Option String

/-- The Init record the service CreateJob builds: the chosen id, the kind
and owner read off the configuration, the Init status, the configuration
itself, and the template text. -/
def initJobRecord (conf : Conf) (jid jobTemplate : String) : Job :=
  { id := jid, jobType := conf.typ, userName := conf.userName,
    queueID := conf.queueID, status := StatusJobInit, config := conf,
    runtimeInfo := none, message := "", activatedAt := ⟨0, false⟩,
    extensionTemplate := jobTemplate }

/-- The service CreateJob proper: validate, check priority, pick the id,
and create the Init record. -/
def CreateJobSvc (ctx : CreateCtx) (conf : Conf) (jobID jobTemplate : String) :
    Except String String × List Event :=
  match ctx.validateJob conf with
  | some e => (.error e, [])
  | none =>
  match checkPriority conf with
  | .error e => (.error e, [.logLine ("check priority failed, err=" ++ e)])
  | .ok conf =>
    let jid := if jobID = "" then ctx.generatedID else jobID
    let jobInfo : Job := initJobRecord conf jid jobTemplate
    match ctx.storeCreate jobInfo with
    | some e =>
      (.error ("create job in database failed, err: " ++ e),
        [.storeCreateCall jobInfo])
    | none => (.ok jid, [.storeCreateCall jobInfo])

/-- SchedulingPolicy of a submission request: queue id and priority. -/
structure SchedulingPolicy where
  queueID : String
  priority : String
  deriving DecidableEq, Repr

/-- CommonJobInfo: the fields shared by all submission request kinds. -/
structure CommonJobInfo where
  id : String
  name : String
  labels : List (String × String)
  annots : List (String × String)
  schedulingPolicy : SchedulingPolicy
  userName : String
  deriving DecidableEq, Repr

/-- JobSpec: the single job specific request fields. -/
structure JobSpecReq where
  flavour : Flavour
  fileSystem : FileSystemRef
  extraFileSystems : List FileSystemRef
  image : String
  env : List (String × String)
  command : String
  args : List String
  port : Nat
  extensionTemplate : String
  deriving DecidableEq, Repr

/-- CreateSingleJobRequest: common info plus the single job spec. -/
structure CreateSingleJobRequest where
  commonJobInfo : CommonJobInfo
  jobSpec : JobSpecReq
  deriving DecidableEq, Repr

/-- CreateJobResponse: the id of the created job. -/
structure CreateJobResponse where
  id : String
  deriving DecidableEq, Repr

/-- Modelled from the spec: common.ID is absent from the sources; the spec
says the filesystem id is computed deterministically from the user name
and the filesystem name. -/
def commonID (userName fsName : String) : String :=
  "fs-" ++ userName ++ "-" ++ fsName

/-- The collaborators of CreateSingleJob: the yaml library conversion, the
directory lookups used by patchEnvs and patchSingleEnvs, and the nested
CreateJob collaborators. -/
structure SingleCtx where
  jsonToYAML : String → Except String String
  getQueueByID : String → Except DbErr Queue
  getFlavour : String → Except String Flavour
  create : CreateCtx

/-- patchEnvs: copy labels and annotations, tag the job kind env marker
and the user name, resolve the queue (translating record-not-found into
the queue-not-found error text of the source), then bind queue id, queue
name tag, a nonempty request priority, cluster id and name space. -/
def patchEnvs (ctx : SingleCtx) (conf : Conf) (commonJobInfo : CommonJobInfo) :
    Except String Conf :=
  let conf := { conf with labels := commonJobInfo.labels, annots := commonJobInfo.annots }
  let conf := conf.setEnv EnvJobType TypePodJob
  let conf := { conf with userName := commonJobInfo.userName }
  let queueID := commonJobInfo.schedulingPolicy.queueID
  match ctx.getQueueByID queueID with
  | .error .recordNotFound => .error ("queue not found by id " ++ queueID)
  | .error (.other m) => .error m
  | .ok queue =>
    let conf := { conf with queueID := queueID }
    let conf := conf.setEnv EnvJobQueueName queue.name
    let conf :=
      if commonJobInfo.schedulingPolicy.priority ≠ "" then
        { conf with priority := commonJobInfo.schedulingPolicy.priority }
      else conf
    .ok { conf with clusterID := queue.clusterId, ns := queue.ns }

/-- patchSingleEnvs: patchEnvs on the common fields, then the single job
fields, the flavour lookup, and the deterministic filesystem id. -/
def patchSingleEnvs (ctx : SingleCtx) (conf : Conf)
    (request : CreateSingleJobRequest) : Except String Conf :=
  match patchEnvs ctx conf request.commonJobInfo with
  | .error e => .error e
  | .ok conf =>
    let conf :=
      { conf with
        extraFileSystems := request.jobSpec.extraFileSystems,
        command := request.jobSpec.command, image := request.jobSpec.image,
        port := request.jobSpec.port, args := request.jobSpec.args }
    match ctx.getFlavour request.jobSpec.flavour.name with
    | .error e => .error e
    | .ok flavour =>
      let conf := { conf with flavour := ⟨flavour.name⟩ }
      let fsID := commonID request.commonJobInfo.userName request.jobSpec.fileSystem.name
      .ok { conf with fsID := fsID }

/-- CreateSingleJob: convert a nonempty extension template from JSON to
YAML (failing before anything else happens), build the initial
configuration from the request verbatim, patch it, and hand the patched
configuration together with the converted template to the service
CreateJob. -/
def CreateSingleJob (ctx : SingleCtx) (request : CreateSingleJobRequest) :
    Except String CreateJobResponse × List Event :=
  let extRes : Except String String :=
    if request.jobSpec.extensionTemplate ≠ "" then
      ctx.jsonToYAML request.jobSpec.extensionTemplate
    else .ok ""
  match extRes with
  | .error e => (.error e, [])
  | .ok extensionTemplate =>
    let conf : Conf :=
      { name := request.commonJobInfo.name,
        labels := request.commonJobInfo.labels,
        annots := request.commonJobInfo.annots,
        env := request.jobSpec.env, port := request.jobSpec.port,
        image := request.jobSpec.image, command := "", args := [],
        fileSystem := request.jobSpec.fileSystem,
        extraFileSystems := request.jobSpec.extraFileSystems,
        priority := request.commonJobInfo.schedulingPolicy.priority,
        flavour := request.jobSpec.flavour, queueID := "", clusterID := "",
        ns := "", userName := "", fsID := "" }
    match patchSingleEnvs ctx conf request with
    | .error e => (.error e, [])
    | .ok conf =>
      match CreateJobSvc ctx.create conf request.commonJobInfo.id extensionTemplate with
      | (.error e, evs) => (.error e, evs)
      | (.ok id, evs) => (.ok ⟨id⟩, evs)

theorem getJobByID_id (db : List Job) (id : String) (j : Job)
    (h : GetJobByID db id = some j) : j.id = id := by
  unfold GetJobByID at h
  have hp := List.find?_some h
  simpa using hp

theorem saveWhere_find (db : List Job) (id : String) (nj j : Job)
    (hfind : GetJobByID db id = some j) (hid : nj.id = id) :
    GetJobByID (saveWhere db id nj) id = some nj := by
  unfold GetJobByID saveWhere at *
  induction db with
  | nil => simp at hfind
  | cons h t ih =>
    by_cases hh : (h.id == id) = true
    · simp only [List.map_cons, if_pos hh]
      rw [List.find?_cons_of_pos]
      simp [hid]
    · simp only [List.map_cons, if_neg hh]
      rw [List.find?_cons_of_neg _ (by simpa using hh)]
      rw [List.find?_cons_of_neg _ (by simpa using hh)] at hfind
      exact ih hfind

theorem updateStatusRecord_terminal (job : Job) (m s : String)
    (hterm : IsImmutableJobStatus job.status = true) (hm : m ≠ "") :
    updateStatusRecord job m s = { job with message := m } := by
  unfold updateStatusRecord
  simp [hterm, hm]

theorem updateJobRecord_running_activated (job : Job) (info : Option String)
    (m : String) (now : Nat) :
    (updateJobRecord job StatusJobRunning info m now).activatedAt = ⟨now, true⟩ := by
  unfold updateJobRecord
  simp

theorem updateJobRecord_id (job : Job) (s : String) (info : Option String)
    (m : String) (now : Nat) :
    (updateJobRecord job s info m now).id = job.id := by
  unfold updateJobRecord
  cases info <;> (repeat' split) <;> rfl

/-- A stored terminal job used as concrete input for the UpdateJobStatus
claims. -/
def c1Job : Job :=
  { defJob with id := "job-1", status := StatusJobSucceeded, message := "old" }

/-- A one-record database holding the terminal job. -/
def c1Db : List Job := [c1Job]

/-- C1: the claim states that UpdateJobStatus on a terminal job leaves
both status and message unchanged and reports an explicit error. On the
concrete terminal job the call returns no error and rewrites the stored
message, so the claim is false as stated. -/
theorem c1_counterexample :
    (UpdateJobStatus c1Db "job-1" "boom" StatusJobRunning).2 = none ∧
    (GetJobByID (UpdateJobStatus c1Db "job-1" "boom" StatusJobRunning).1 "job-1").map
      Job.message = some "boom" := by
  decide

/-- C1 (amended): UpdateJobStatus on a job whose current status is
terminal leaves the status unchanged, but a nonempty message argument is
still written to the stored record, and the call reports no error: the
rejected status transition is silently dropped. -/
theorem c1_amended (db : List Job) (jobId msg st : String) (job : Job)
    (hfind : GetJobByID db jobId = some job)
    (hterm : IsImmutableJobStatus job.status = true)
    (hmsg : msg ≠ "") :
    (UpdateJobStatus db jobId msg st).2 = none ∧
    GetJobByID (UpdateJobStatus db jobId msg st).1 jobId =
      some { job with message := msg } := by
  unfold UpdateJobStatus
  simp only [hfind]
  refine ⟨by simp, ?_⟩
  rw [updateStatusRecord_terminal job msg st hterm hmsg]
  exact saveWhere_find db jobId _ job hfind (getJobByID_id db jobId job hfind)

/-- Witness for the amended C1 at the concrete terminal job. -/
theorem c1_amended_witness :
    (UpdateJobStatus c1Db "job-1" "boom" StatusJobRunning).2 = none ∧
    GetJobByID (UpdateJobStatus c1Db "job-1" "boom" StatusJobRunning).1 "job-1" =
      some { c1Job with message := "boom" } :=
  c1_amended c1Db "job-1" "boom" StatusJobRunning c1Job (by decide) (by decide)
    (by decide)

/-- A running job whose ActivatedAt stamp is already set, used as concrete
input for the UpdateJob claims. -/
def c7Job : Job :=
  { defJob with
    id := "job-2", status := StatusJobRunning, activatedAt := ⟨5, true⟩ }

/-- A one-record database holding the already activated job. -/
def c7Db : List Job := [c7Job]

/-- C7: the claim states that ActivatedAt is set exactly once, the first
time the status becomes running. On a job whose ActivatedAt is already
the valid stamp 5, a second running update at time 9 rewrites the stamp
to 9, so a later update does change ActivatedAt and the claim is false as
stated. -/
theorem c7_counterexample :
    (GetJobByID (UpdateJob c7Db "job-2" StatusJobRunning none "" 9).1 "job-2").map
      Job.activatedAt = some ⟨9, true⟩ ∧
    (⟨9, true⟩ : NullTime) ≠ ⟨5, true⟩ := by
  decide

/-- C7 (amended): UpdateJob stamps ActivatedAt with the current time on
every call whose status argument is running — including repeated running
updates and updates against a job whose current status is terminal —
rather than only on the first transition into running. -/
theorem c7_amended (db : List Job) (jobID : String) (info : Option String)
    (msg : String) (now : Nat) (job : Job)
    (hfind : GetJobByID db jobID = some job) :
    (GetJobByID (UpdateJob db jobID StatusJobRunning info msg now).1 jobID).map
      Job.activatedAt = some ⟨now, true⟩ := by
  unfold UpdateJob
  simp only [hfind]
  have hid : (updateJobRecord job StatusJobRunning info msg now).id = jobID := by
    rw [updateJobRecord_id, getJobByID_id db jobID job hfind]
  rw [saveWhere_find db jobID _ job hfind hid]
  simp [updateJobRecord_running_activated]

/-- Witness for the amended C7: a terminal job still gets restamped at
time 9 by a running update. -/
theorem c7_amended_witness :
    (GetJobByID (UpdateJob c1Db "job-1" StatusJobRunning none "" 9).1 "job-1").map
      Job.activatedAt = some ⟨9, true⟩ :=
  c7_amended c1Db "job-1" none "" 9 c1Job (by decide)

theorem getJobByID_filter_ne (db : List Job) (id : String) :
    GetJobByID (db.filter (fun j => j.id ≠ id)) id = none := by
  unfold GetJobByID
  rw [List.find?_eq_none]
  intro x hx
  have hmem := List.of_mem_filter hx
  simp at hmem ⊢
  exact hmem

/-- A context in which every collaborator succeeds. -/
def okCtx : OrchCtx :=
  { getQueueByID := fun _ => .ok ⟨"q1", "c1", "ns1"⟩,
    getClusterById := fun _ => .ok ⟨"c1"⟩,
    getOrCreateRuntime := fun _ => .ok ⟨"rt1"⟩,
    runtimeDeleteJob := fun _ _ => none,
    runtimeStopJob := fun _ _ => none,
    storeDelete := fun _ => none }

/-- A stored failed job used as concrete input for the StopJob claim. -/
def c2Job : Job :=
  { defJob with id := "job-3", status := StatusJobFailed, queueID := "q1" }

/-- A one-record database holding the failed job. -/
def c2Db : List Job := [c2Job]

/-- C2: StopJob on a job whose current status is terminal returns the
state conflict error built from the job id and status, and its trace
contains no mutating call on the runtime service or the job repository
(only the conflict log line); the stored record is untouched because
StopJob never writes to the repository at all. -/
theorem c2_stopJob_terminal (ctx : OrchCtx) (db : List Job) (jobID : String)
    (job : Job) (hfind : GetJobByID db jobID = some job)
    (hterm : IsImmutableJobStatus job.status = true) :
    StopJob ctx db jobID =
      (some (stopConflictMsg jobID job.status),
        [Event.logLine (stopConflictMsg jobID job.status)]) ∧
    ∀ e ∈ (StopJob ctx db jobID).2, e.isMutating = false := by
  have h1 : StopJob ctx db jobID =
      (some (stopConflictMsg jobID job.status),
        [Event.logLine (stopConflictMsg jobID job.status)]) := by
    unfold StopJob CheckPermission
    simp [hfind, hterm]
  refine ⟨h1, ?_⟩
  rw [h1]
  intro e he
  simp at he
  subst he
  rfl

/-- Witness for C2 at the concrete failed job under the all-success
context. -/
theorem c2_stopJob_terminal_witness :
    StopJob okCtx c2Db "job-3" =
      (some (stopConflictMsg "job-3" c2Job.status),
        [Event.logLine (stopConflictMsg "job-3" c2Job.status)]) ∧
    ∀ e ∈ (StopJob okCtx c2Db "job-3").2, e.isMutating = false :=
  c2_stopJob_terminal okCtx c2Db "job-3" c2Job (by decide) (by decide)

/-- C3: when the runtime delete fails, DeleteJob surfaces exactly the
runtime error, returns the database unchanged, and its trace holds no
repository delete; a repository delete can appear in the trace only when
the runtime call succeeded; and a retry whose runtime and repository
calls succeed removes the record. -/
theorem c3_deleteJob_runtime_failure (ctx : OrchCtx) (db : List Job)
    (jobID : String) (job : Job) (rt : RuntimeSvc)
    (hfind : GetJobByID db jobID = some job)
    (hrt : getRuntimeByQueue ctx job.queueID = .ok rt) :
    (∀ e, ctx.runtimeDeleteJob rt ⟨job.id, job.jobType, job.status⟩ = some e →
      DeleteJob ctx db jobID =
        (some e, db,
          [Event.runtimeDeleteCall ⟨job.id, job.jobType, job.status⟩,
           Event.logLine (deleteFromClusterFailMsg jobID e)])) ∧
    (Event.storeDeleteCall jobID ∈ (DeleteJob ctx db jobID).2.2 →
      ctx.runtimeDeleteJob rt ⟨job.id, job.jobType, job.status⟩ = none) ∧
    (∀ ctx2 : OrchCtx, ∀ rt2 : RuntimeSvc,
      getRuntimeByQueue ctx2 job.queueID = .ok rt2 →
      ctx2.runtimeDeleteJob rt2 ⟨job.id, job.jobType, job.status⟩ = none →
      ctx2.storeDelete jobID = none →
      (DeleteJob ctx2 db jobID).1 = none ∧
      GetJobByID (DeleteJob ctx2 db jobID).2.1 jobID = none) := by
  refine ⟨?_, ?_, ?_⟩
  · intro e hfail
    unfold DeleteJob CheckPermission
    simp [hfind, hrt, NewJobInfo, hfail]
  · intro hmem
    cases hdel : ctx.runtimeDeleteJob rt ⟨job.id, job.jobType, job.status⟩ with
    | none => rfl
    | some e =>
      have h1 : DeleteJob ctx db jobID =
          (some e, db,
            [Event.runtimeDeleteCall ⟨job.id, job.jobType, job.status⟩,
             Event.logLine (deleteFromClusterFailMsg jobID e)]) := by
        unfold DeleteJob CheckPermission
        simp [hfind, hrt, NewJobInfo, hdel]
      rw [h1] at hmem
      simp at hmem
  · intro ctx2 rt2 hrt2 hdel2 hstore2
    have h2 : DeleteJob ctx2 db jobID =
        (none, db.filter (fun j => j.id ≠ jobID),
          [Event.runtimeDeleteCall ⟨job.id, job.jobType, job.status⟩,
           Event.storeDeleteCall jobID]) := by
      unfold DeleteJob CheckPermission
      simp [hfind, hrt2, NewJobInfo, hdel2, hstore2]
    rw [h2]
    exact ⟨rfl, getJobByID_filter_ne db jobID⟩

/-- A stored succeeded job used as concrete input for the DeleteJob
claims. -/
def c5Job : Job :=
  { defJob with id := "job-5", status := StatusJobSucceeded, queueID := "q1" }

/-- A one-record database holding the succeeded job. -/
def c5Db : List Job := [c5Job]

/-- C5: the claim states that DeleteJob on a Succeeded job makes no
runtime service call, performs no repository delete, and returns a state
conflict error. On the concrete succeeded job under an all-success
context the call returns no error, the runtime delete and the repository
delete both appear in the trace, and the record is gone, so the claim is
false as stated. -/
theorem c5_counterexample :
    (DeleteJob okCtx c5Db "job-5").1 = none ∧
    Event.runtimeDeleteCall ⟨"job-5", "", StatusJobSucceeded⟩ ∈
      (DeleteJob okCtx c5Db "job-5").2.2 ∧
    Event.storeDeleteCall "job-5" ∈ (DeleteJob okCtx c5Db "job-5").2.2 ∧
    GetJobByID (DeleteJob okCtx c5Db "job-5").2.1 "job-5" = none := by
  decide

/-- C5 (amended): DeleteJob performs no terminal status check: on a job
whose status is terminal (for example Succeeded) it proceeds exactly as
for a live job, invoking the runtime service delete and, on its success,
the repository delete, and returns success instead of a state conflict
error. -/
theorem c5_amended (ctx : OrchCtx) (db : List Job) (jobID : String)
    (job : Job) (rt : RuntimeSvc)
    (hfind : GetJobByID db jobID = some job)
    (_hterm : IsImmutableJobStatus job.status = true)
    (hrt : getRuntimeByQueue ctx job.queueID = .ok rt)
    (hdel : ctx.runtimeDeleteJob rt ⟨job.id, job.jobType, job.status⟩ = none)
    (hstore : ctx.storeDelete jobID = none) :
    DeleteJob ctx db jobID =
      (none, db.filter (fun j => j.id ≠ jobID),
        [Event.runtimeDeleteCall ⟨job.id, job.jobType, job.status⟩,
         Event.storeDeleteCall jobID]) := by
  unfold DeleteJob CheckPermission
  simp [hfind, hrt, NewJobInfo, hdel, hstore]

/-- Witness for the amended C5 at the concrete succeeded job. -/
theorem c5_amended_witness :
    DeleteJob okCtx c5Db "job-5" =
      (none, c5Db.filter (fun j => j.id ≠ "job-5"),
        [Event.runtimeDeleteCall ⟨c5Job.id, c5Job.jobType, c5Job.status⟩,
         Event.storeDeleteCall "job-5"]) :=
  c5_amended okCtx c5Db "job-5" c5Job ⟨"rt1"⟩ (by decide) (by decide)
    (by rfl) (by rfl) (by rfl)

/-- A context whose runtime delete fails with the error text boom. -/
def c6CtxRuntimeFail : OrchCtx :=
  { okCtx with runtimeDeleteJob := fun _ _ => some "boom" }

/-- A context whose runtime delete succeeds and whose repository delete
fails with the error text boom. -/
def c6CtxStoreFail : OrchCtx :=
  { okCtx with storeDelete := fun _ => some "boom" }

/-- C6: when the repository delete fails after a successful runtime
delete, the source logs the identical delete-from-cluster-failed text it
logs for a runtime failure, and in both branches it returns the bare
underlying error value with no wrapping; with the same underlying error
text the two failure domains are indistinguishable to the caller in both
kind and message, confirming that the code conflates them. -/
theorem c6_code_bug :
    (DeleteJob c6CtxRuntimeFail c5Db "job-5").1 = some "boom" ∧
    (DeleteJob c6CtxStoreFail c5Db "job-5").1 = some "boom" ∧
    Event.logLine (deleteFromClusterFailMsg "job-5" "boom") ∈
      (DeleteJob c6CtxRuntimeFail c5Db "job-5").2.2 ∧
    Event.logLine (deleteFromClusterFailMsg "job-5" "boom") ∈
      (DeleteJob c6CtxStoreFail c5Db "job-5").2.2 := by
  decide

theorem length_ne_zero_of_ne_empty (s : String) (h : s ≠ "") :
    s.length ≠ 0 := by
  intro h0
  apply h
  cases s with
  | mk data =>
    cases data with
    | nil => rfl
    | cons c cs => simp [String.length] at h0

theorem checkPriority_invalid (conf : Conf)
    (h0 : conf.priority ≠ "")
    (h1 : conf.priority ≠ EnvJobLowPriority)
    (h2 : conf.priority ≠ EnvJobNormalPriority)
    (h3 : conf.priority ≠ EnvJobHighPriority) :
    checkPriority conf = .error (InvalidJobPriorityError conf.priority) := by
  unfold checkPriority
  rw [if_neg (length_ne_zero_of_ne_empty conf.priority h0)]
  rw [if_pos ⟨h1, h2, h3⟩]

/-- A create context whose collaborators all succeed. -/
def c4Ctx : CreateCtx :=
  { validateJob := fun _ => none, generatedID := "job-gen",
    storeCreate := fun _ => none }

/-- A configuration carrying the out-of-range priority label urgent. -/
def c4Conf : Conf := { defConf with priority := "urgent" }

/-- C4: a structurally valid request with an empty priority has its
configuration priority normalized to the normal label, and the record
handed to the repository create carries that normalized configuration;
a structurally valid request whose nonempty priority is outside low,
normal, high makes CreateJob fail with the invalid priority error
carrying the offending value, and its trace holds only the failure log
line, so the repository create is never invoked. -/
theorem c4_priority (ctx : CreateCtx) (confE confI : Conf)
    (jobID jobTemplate : String)
    (hvE : ctx.validateJob confE = none)
    (hvI : ctx.validateJob confI = none)
    (hE : confE.priority = "")
    (hI0 : confI.priority ≠ "")
    (hI1 : confI.priority ≠ EnvJobLowPriority)
    (hI2 : confI.priority ≠ EnvJobNormalPriority)
    (hI3 : confI.priority ≠ EnvJobHighPriority) :
    checkPriority confE = .ok { confE with priority := EnvJobNormalPriority } ∧
    (CreateJobSvc ctx confE jobID jobTemplate).2 =
      [Event.storeCreateCall
        (initJobRecord { confE with priority := EnvJobNormalPriority }
          (if jobID = "" then ctx.generatedID else jobID) jobTemplate)] ∧
    CreateJobSvc ctx confI jobID jobTemplate =
      (.error (InvalidJobPriorityError confI.priority),
        [Event.logLine ("check priority failed, err=" ++
          InvalidJobPriorityError confI.priority)]) := by
  have hcpE : checkPriority confE =
      .ok { confE with priority := EnvJobNormalPriority } := by
    unfold checkPriority
    rw [hE]
    rfl
  have hcpI := checkPriority_invalid confI hI0 hI1 hI2 hI3
  refine ⟨hcpE, ?_, ?_⟩
  · unfold CreateJobSvc
    simp only [hvE, hcpE]
    cases ctx.storeCreate (initJobRecord { confE with priority := EnvJobNormalPriority }
        (if jobID = "" then ctx.generatedID else jobID) jobTemplate) <;> rfl
  · unfold CreateJobSvc
    simp only [hvI, hcpI]

/-- Witness for C4: empty priority normalized, and the urgent label
rejected before any repository create. -/
theorem c4_priority_witness :
    checkPriority defConf = .ok { defConf with priority := EnvJobNormalPriority } ∧
    (CreateJobSvc c4Ctx defConf "job-4" "t").2 =
      [Event.storeCreateCall
        (initJobRecord { defConf with priority := EnvJobNormalPriority }
          (if "job-4" = "" then c4Ctx.generatedID else "job-4") "t")] ∧
    CreateJobSvc c4Ctx c4Conf "job-4" "t" =
      (.error (InvalidJobPriorityError c4Conf.priority),
        [Event.logLine ("check priority failed, err=" ++
          InvalidJobPriorityError c4Conf.priority)]) :=
  c4_priority c4Ctx defConf c4Conf "job-4" "t" rfl rfl rfl (by decide)
    (by decide) (by decide) (by decide)

/-- Holds of an event unless it is a repository create whose record
carries a template text other than the given one. -/
def templMatches (ev : Event) (t : String) : Bool :=
  match ev with
  | Event.storeCreateCall j => j.extensionTemplate == t
  | _ => true

theorem createJobSvc_trace_template (cctx : CreateCtx) (conf : Conf)
    (id tmpl : String) :
    ((CreateJobSvc cctx conf id tmpl).2.all (fun ev => templMatches ev tmpl)) = true := by
  unfold CreateJobSvc
  split
  · rfl
  · split
    · rfl
    · dsimp only
      split <;> simp [templMatches, initJobRecord]

theorem createSingleJob_trace_template (ctx : SingleCtx)
    (req : CreateSingleJobRequest) (y : String)
    (hconv : (if req.jobSpec.extensionTemplate ≠ "" then
        ctx.jsonToYAML req.jobSpec.extensionTemplate
      else .ok "") = .ok y) :
    ((CreateSingleJob ctx req).2.all (fun ev => templMatches ev y)) = true := by
  unfold CreateSingleJob
  rw [hconv]
  dsimp only
  split
  · rfl
  · rename_i conf2 hp
    have hall := createJobSvc_trace_template ctx.create conf2 req.commonJobInfo.id y
    split
    · rename_i r evs heq
      rw [heq] at hall
      exact hall
    · rename_i r evs heq
      rw [heq] at hall
      exact hall

/-- A conversion library in which only the text bad fails to convert. -/
def c10Ctx : SingleCtx :=
  { jsonToYAML := fun s => if s = "bad" then .error "not json" else .ok ("yaml " ++ s),
    getQueueByID := fun _ => .ok ⟨"q1", "c1", "ns1"⟩,
    getFlavour := fun n => .ok ⟨n⟩,
    create := c4Ctx }

/-- A full single job submission request with the given extension
template text. -/
def mkReq (ext : String) : CreateSingleJobRequest :=
  { commonJobInfo :=
      { id := "job-10", name := "j", labels := [], annots := [],
        schedulingPolicy := ⟨"q1", ""⟩, userName := "u" },
    jobSpec :=
      { flavour := ⟨"f1"⟩, fileSystem := ⟨"fs1"⟩, extraFileSystems := [],
        image := "img", env := [], command := "c", args := [], port := 80,
        extensionTemplate := ext } }

/-- C10: a nonempty extension template that fails JSON to YAML conversion
makes CreateSingleJob return that error with an empty trace, before
CreateJob is reached and with no repository create; an empty template
skips the conversion entirely (the result does not depend on the
conversion library) and every created record carries the empty template;
a nonempty template that converts to y has the converted text y, not the
original JSON, on every record handed to the repository create. -/
theorem c10_extensionTemplate (ctx : SingleCtx)
    (f g : String → Except String String)
    (req1 req2 req3 : CreateSingleJobRequest) (e y : String)
    (h1 : req1.jobSpec.extensionTemplate ≠ "")
    (h1f : ctx.jsonToYAML req1.jobSpec.extensionTemplate = .error e)
    (h2 : req2.jobSpec.extensionTemplate = "")
    (h3 : req3.jobSpec.extensionTemplate ≠ "")
    (h3f : ctx.jsonToYAML req3.jobSpec.extensionTemplate = .ok y) :
    CreateSingleJob ctx req1 = (.error e, []) ∧
    CreateSingleJob { ctx with jsonToYAML := f } req2 =
      CreateSingleJob { ctx with jsonToYAML := g } req2 ∧
    ((CreateSingleJob ctx req2).2.all (fun ev => templMatches ev "")) = true ∧
    ((CreateSingleJob ctx req3).2.all (fun ev => templMatches ev y)) = true := by
  refine ⟨?_, ?_, ?_, ?_⟩
  · unfold CreateSingleJob
    rw [if_pos h1, h1f]
  · unfold CreateSingleJob
    rw [if_neg (fun hc => hc h2), if_neg (fun hc => hc h2)]
    rfl
  · exact createSingleJob_trace_template ctx req2 "" (if_neg (fun hc => hc h2))
  · exact createSingleJob_trace_template ctx req3 y (by rw [if_pos h3]; exact h3f)

/-- Witness for C10 at a concrete conversion library and three concrete
requests. -/
theorem c10_extensionTemplate_witness :
    CreateSingleJob c10Ctx (mkReq "bad") = (.error "not json", []) ∧
    CreateSingleJob { c10Ctx with jsonToYAML := fun _ => .error "fx" } (mkReq "") =
      CreateSingleJob { c10Ctx with jsonToYAML := fun _ => .ok "gx" } (mkReq "") ∧
    ((CreateSingleJob c10Ctx (mkReq "")).2.all (fun ev => templMatches ev "")) = true ∧
    ((CreateSingleJob c10Ctx (mkReq "doc")).2.all (fun ev => templMatches ev "yaml doc")) = true :=
  c10_extensionTemplate c10Ctx (fun _ => .error "fx") (fun _ => .ok "gx")
    (mkReq "bad") (mkReq "") (mkReq "doc") "not json" "yaml doc"
    (by decide) (by rfl) (by rfl) (by decide) (by rfl)

theorem likeMatch_pct_nil (t : List Char) :
    likeMatch (Char.ofNat 37 :: ([] : List Char)) t = true := by
  unfold likeMatch
  rw [if_pos rfl]
  induction t with
  | nil => rfl
  | cons c ts ih =>
    rw [List.tails_cons, List.any_cons]
    rw [ih]
    simp [likeMatch]

theorem strToList_append (a b : String) :
    (a ++ b).toList = a.toList ++ b.toList := by
  cases a
  cases b
  rfl

theorem likeMatch_append_pct (p : List Char)
    (hpct : Char.ofNat 37 ∉ p) (hus : Char.ofNat 95 ∉ p) (t : List Char) :
    likeMatch (p ++ [Char.ofNat 37]) t = listStartsWith p t := by
  induction p generalizing t with
  | nil =>
    rw [List.nil_append]
    rw [likeMatch_pct_nil t]
    rfl
  | cons c ps ih =>
    have hc1 : c ≠ Char.ofNat 37 := fun h => hpct (h ▸ List.mem_cons_self c ps)
    have hc2 : c ≠ Char.ofNat 95 := fun h => hus (h ▸ List.mem_cons_self c ps)
    have hps1 : Char.ofNat 37 ∉ ps := fun h => hpct (List.mem_cons_of_mem c h)
    have hps2 : Char.ofNat 95 ∉ ps := fun h => hus (List.mem_cons_of_mem c h)
    cases t with
    | nil =>
      show likeMatch (c :: (ps ++ [Char.ofNat 37])) [] = listStartsWith (c :: ps) []
      unfold likeMatch listStartsWith
      rw [if_neg hc1]
    | cons d ts =>
      show likeMatch (c :: (ps ++ [Char.ofNat 37])) (d :: ts) =
        listStartsWith (c :: ps) (d :: ts)
      unfold likeMatch listStartsWith
      rw [if_neg hc1]
      simp only [hc2, decide_False, Bool.false_or]
      rw [ih hps1 hps2 ts]

theorem filter_id_length_le_one (db : List Job) (v : String)
    (hnd : (db.map Job.id).Nodup) :
    (db.filter (fun j => j.id == v)).length ≤ 1 := by
  induction db with
  | nil => simp
  | cons h t ih =>
    simp only [List.map_cons, List.nodup_cons] at hnd
    obtain ⟨hni, hnd2⟩ := hnd
    rw [List.filter_cons]
    by_cases hh : (h.id == v) = true
    · rw [if_pos hh]
      have hrest : t.filter (fun j => j.id == v) = [] := by
        rw [List.filter_eq_nil_iff]
        intro x hx hxv
        apply hni
        have hx1 : x.id = v := by simpa using hxv
        have hh1 : h.id = v := by simpa using hh
        rw [hh1, ← hx1]
        exact List.mem_map_of_mem Job.id hx
      rw [hrest]
      simp
    · rw [if_neg hh]
      exact ih hnd2

/-- The literal reading of the spec pattern: the id begins with the text
job dash runID dash. -/
def specIdMatch (runID : String) (j : Job) : Bool :=
  listStartsWith ("job-" ++ runID ++ "-").toList j.id.toList

/-- A stored job whose id matches the LIKE pattern for run id a
underscore b without beginning with the literal text job-a_b-. -/
def c9Job : Job := { defJob with id := "job-axb-1" }

/-- C9: the claim states that for every runID the empty-exact-id query
returns exactly the jobs whose id has the literal form job dash runID
dash star. The run id a underscore b is a counterexample: the underscore
is a single character wildcard of the SQL LIKE operator the source
builds its pattern for, so the query returns the stored job job-axb-1
even though its id does not begin with the literal text job-a_b-. -/
theorem c9_counterexample :
    GetJobsByRunID [c9Job] "a_b" "" = [c9Job] ∧
    [c9Job].filter (specIdMatch "a_b") = [] := by
  decide

/-- C9 (amended): for every runID free of the LIKE wildcard characters
percent and underscore, the empty-exact-id query returns exactly the
stored jobs whose id begins with the literal text job dash runID dash;
a nonempty exact job id further restricts the result by equality with
that id, and when stored ids are pairwise distinct the restricted result
holds at most one record. -/
theorem c9_amended (db : List Job) (runID jobID : String)
    (hpct : Char.ofNat 37 ∉ runID.toList)
    (hus : Char.ofNat 95 ∉ runID.toList)
    (hjob : jobID ≠ "")
    (hnd : (db.map Job.id).Nodup) :
    GetJobsByRunID db runID "" = db.filter (specIdMatch runID) ∧
    GetJobsByRunID db runID jobID =
      (db.filter (fun j =>
        likeMatch ("job-" ++ runID ++ "-%").toList j.id.toList)).filter
        (fun j => j.id == jobID) ∧
    (GetJobsByRunID db runID jobID).length ≤ 1 := by
  have hpat : ("job-" ++ runID ++ "-%").toList =
      ("job-" ++ runID ++ "-").toList ++ [Char.ofNat 37] := by
    simp only [strToList_append, List.append_assoc]
    rfl
  have hfree1 : Char.ofNat 37 ∉ ("job-" ++ runID ++ "-").toList := by
    intro hmem
    rw [strToList_append, strToList_append] at hmem
    rcases List.mem_append.mp hmem with h | h
    · rcases List.mem_append.mp h with h2 | h2
      · exact absurd h2 (by decide)
      · exact hpct h2
    · exact absurd h (by decide)
  have hfree2 : Char.ofNat 95 ∉ ("job-" ++ runID ++ "-").toList := by
    intro hmem
    rw [strToList_append, strToList_append] at hmem
    rcases List.mem_append.mp hmem with h | h
    · rcases List.mem_append.mp h with h2 | h2
      · exact absurd h2 (by decide)
      · exact hus h2
    · exact absurd h (by decide)
  refine ⟨?_, ?_, ?_⟩
  · unfold GetJobsByRunID
    rw [if_neg (fun hc => hc rfl)]
    apply List.filter_congr
    intro j hj
    rw [hpat]
    exact likeMatch_append_pct _ hfree1 hfree2 j.id.toList
  · unfold GetJobsByRunID
    rw [if_pos hjob]
  · unfold GetJobsByRunID
    rw [if_pos hjob]
    apply filter_id_length_le_one
    exact List.Nodup.sublist (List.Sublist.map Job.id (List.filter_sublist db)) hnd

/-- A second stored job outside the run used by the C9 witness. -/
def c9Job2 : Job := { defJob with id := "job-r1-2" }

/-- Witness for the amended C9 at the run id r1 over a two-record store. -/
theorem c9_amended_witness :
    GetJobsByRunID [c9Job, c9Job2] "r1" "" =
      [c9Job, c9Job2].filter (specIdMatch "r1") ∧
    GetJobsByRunID [c9Job, c9Job2] "r1" "job-r1-2" =
      ([c9Job, c9Job2].filter (fun j =>
        likeMatch ("job-" ++ "r1" ++ "-%").toList j.id.toList)).filter
        (fun j => j.id == "job-r1-2") ∧
    (GetJobsByRunID [c9Job, c9Job2] "r1" "job-r1-2").length ≤ 1 :=
  c9_amended [c9Job, c9Job2] "r1" "job-r1-2" (by decide) (by decide)
    (by decide) (by decide)

/-- Witness for C3: a failing runtime delete leaves the record in place
and surfaces the runtime error, and the retry under the all-success
context removes the record. -/
theorem c3_deleteJob_runtime_failure_witness :
    DeleteJob c6CtxRuntimeFail c5Db "job-5" =
      (some "boom", c5Db,
        [Event.runtimeDeleteCall ⟨c5Job.id, c5Job.jobType, c5Job.status⟩,
         Event.logLine (deleteFromClusterFailMsg "job-5" "boom")]) ∧
    ((DeleteJob okCtx c5Db "job-5").1 = none ∧
      GetJobByID (DeleteJob okCtx c5Db "job-5").2.1 "job-5" = none) :=
  ⟨(c3_deleteJob_runtime_failure c6CtxRuntimeFail c5Db "job-5" c5Job ⟨"rt1"⟩
      (by decide) (by rfl)).1 "boom" (by rfl),
   (c3_deleteJob_runtime_failure c6CtxRuntimeFail c5Db "job-5" c5Job ⟨"rt1"⟩
      (by decide) (by rfl)).2.2 okCtx ⟨"rt1"⟩ (by rfl) (by rfl) (by rfl)⟩
